import Mathlib

/-!
Verification of the Underground Hydrogen Storage Optimization app core
(`hydrogen_storage_pro_app.py`).

The computational core of the repository is the pure function `predict`
(lines 66–86) plus the pressure-sweep loop (lines 110–117) that samples
`predict` over `np.linspace(1, 10, 100)` for plotting.  Python floats are
modelled by exact rationals `ℚ`; every decimal literal of the source is
representable exactly, so the formulas transfer verbatim.  The formation
argument is a `String`, as in the source, where the branch test is string
equality against "Depleted Gas Field".
-/

/-- Embedding of `predict(pressure, formation, delta_T, cycles)`
(source lines 66–86).  Returns the `(stress, displacement, risk)` triple:
base stress/displacement polynomials selected by the formation string,
a multiplicative thermal adjustment `x += x * thermal_strain`, and the
threshold risk classifier. -/
def predict (pressure : ℚ) (formation : String) (delta_T : ℚ) (cycles : ℚ) :
    ℚ × ℚ × String :=
  let base : ℚ × ℚ :=
    if formation = "Depleted Gas Field" then
      (0.21 * pressure + 0.3 * pressure ^ 2,
       0.0015 * pressure + 0.0001 * pressure ^ 2)
    else
      (0.18 * pressure + 0.2 * pressure ^ 2,
       0.001 * pressure + 0.00005 * pressure ^ 2)
  let alpha : ℚ := 3.5e-5
  let thermal_strain : ℚ := alpha * delta_T * cycles
  let stress : ℚ := base.1 + base.1 * thermal_strain
  let displacement : ℚ := base.2 + base.2 * thermal_strain
  let risk : String :=
    if stress > 6.5 ∨ displacement > 0.015 then "High"
    else if stress > 5.5 ∨ displacement > 0.012 then "Moderate"
    else "Low"
  (stress, displacement, risk)

/-- Embedding of `np.linspace(lo, hi, n)` over ℚ: `n` evenly spaced values
from `lo` to `hi`, both endpoints included (for `n ≥ 2`; `n = 1` gives
`[lo]`, `n = 0` gives `[]`, as numpy). -/
def linspace (lo hi : ℚ) (n : ℕ) : List ℚ :=
  (List.range n).map fun i : ℕ => lo + (hi - lo) * (i : ℚ) / ((n : ℚ) - 1)

/-- Embedding of the sweep loop (source lines 110–117): for each sampled
pressure `p`, record `(p, stress, displacement * 1000)` where stress and
displacement come from `predict` at `p` with the fixed formation and
thermal parameters; the third component is displacement in millimeters. -/
def sweep (formation : String) (delta_T cycles lowP highP : ℚ) (samples : ℕ) :
    List (ℚ × ℚ × ℚ) :=
  (linspace lowP highP samples).map fun p =>
    (p, (predict p formation delta_T cycles).1,
        (predict p formation delta_T cycles).2.1 * 1000)

/-- Projecting the pressures out of a sweep recovers the linspace grid. -/
lemma sweep_pressures (f : String) (dT c lowP highP : ℚ) (n : ℕ) :
    (sweep f dT c lowP highP n).map Prod.fst = linspace lowP highP n := by
  simp [sweep, List.map_map, Function.comp_def]

/-- The stress component of `predict`, in closed form: the formation-selected
base stress polynomial scaled by the thermal factor `1 + α·ΔT·cycles`. -/
lemma predict_stress_eq (p : ℚ) (f : String) (dT c : ℚ) :
    (predict p f dT c).1 =
      (if f = "Depleted Gas Field" then 0.21 * p + 0.3 * p ^ 2
       else 0.18 * p + 0.2 * p ^ 2) * (1 + 3.5e-5 * dT * c) := by
  by_cases hf : f = "Depleted Gas Field" <;> simp [predict, hf] <;> ring

/-- The displacement component of `predict`, in closed form. -/
lemma predict_disp_eq (p : ℚ) (f : String) (dT c : ℚ) :
    (predict p f dT c).2.1 =
      (if f = "Depleted Gas Field" then 0.0015 * p + 0.0001 * p ^ 2
       else 0.001 * p + 0.00005 * p ^ 2) * (1 + 3.5e-5 * dT * c) := by
  by_cases hf : f = "Depleted Gas Field" <;> simp [predict, hf] <;> ring

lemma linspace_length (lo hi : ℚ) (n : ℕ) : (linspace lo hi n).length = n := by
  unfold linspace; rw [List.length_map, List.length_range]

lemma linspace_head (lo hi : ℚ) (n : ℕ) (hn : n ≠ 0) :
    (linspace lo hi n).head? = some lo := by
  obtain ⟨m, rfl⟩ := Nat.exists_eq_succ_of_ne_zero hn
  unfold linspace
  rw [List.range_succ_eq_map]
  simp

lemma linspace_getLast (lo hi : ℚ) (n : ℕ) (hn : 2 ≤ n) :
    (linspace lo hi n).getLast? = some hi := by
  obtain ⟨m, rfl⟩ := Nat.exists_eq_succ_of_ne_zero (by omega : n ≠ 0)
  unfold linspace
  rw [List.range_succ, List.map_append, List.map_cons, List.map_nil, List.getLast?_concat]
  have hm : (m : ℚ) ≠ 0 := Nat.cast_ne_zero.mpr (by omega)
  congr 1
  push_cast
  field_simp

lemma linspace_pairwise (lo hi : ℚ) (n : ℕ) (h : lo < hi) (hn : 2 ≤ n) :
    (linspace lo hi n).Pairwise (· < ·) := by
  unfold linspace
  refine List.Pairwise.map _ ?_ (List.pairwise_lt_range n)
  intro i j hij
  have hd : (0:ℚ) < (n : ℚ) - 1 := by
    have h2 : (2:ℚ) ≤ (n : ℚ) := by exact_mod_cast hn
    linarith
  have hlt : (hi - lo) * (i : ℚ) < (hi - lo) * (j : ℚ) := by
    have hij' : (i : ℚ) < (j : ℚ) := by exact_mod_cast hij
    nlinarith
  exact add_lt_add_left (div_lt_div_of_pos_right hlt hd) lo

/-- C1: `predict` classifies the risk tier of the computed stress and
displacement by thresholds with first-match precedence — High if
stress > 6.5 or displacement > 0.015, else Moderate if stress > 5.5 or
displacement > 0.012, else Low; in particular stress > 6.5 forces High
regardless of displacement. -/
theorem risk_tier_first_match (p : ℚ) (f : String) (dT c : ℚ) :
    ((predict p f dT c).2.2 =
      if (predict p f dT c).1 > 6.5 ∨ (predict p f dT c).2.1 > 0.015 then "High"
      else if (predict p f dT c).1 > 5.5 ∨ (predict p f dT c).2.1 > 0.012 then "Moderate"
      else "Low") ∧
    ((predict p f dT c).1 > 6.5 → (predict p f dT c).2.2 = "High") := by
  have h1 : (predict p f dT c).2.2 =
      (if (predict p f dT c).1 > 6.5 ∨ (predict p f dT c).2.1 > 0.015 then "High"
       else if (predict p f dT c).1 > 5.5 ∨ (predict p f dT c).2.1 > 0.012 then "Moderate"
       else "Low") := rfl
  exact ⟨h1, fun h => by rw [h1, if_pos (Or.inl h)]⟩

/-- Witness for C1 at a concrete input whose stress exceeds 6.5. -/
theorem risk_tier_first_match_witness :
    (predict 7 "Depleted Gas Field" 0 1).2.2 = "High" :=
  (risk_tier_first_match 7 "Depleted Gas Field" 0 1).2 (by simp [predict]; norm_num)

/-- C2: with ΔT = 0 or cycles = 0, `predict` returns exactly the base
formulas of each formation, with no thermal adjustment. -/
theorem base_formulas_no_thermal (P dT c : ℚ) (hP : 0 ≤ P) (h : dT = 0 ∨ c = 0) :
    ((predict P "Depleted Gas Field" dT c).1 = 0.21 * P + 0.30 * P ^ 2 ∧
     (predict P "Depleted Gas Field" dT c).2.1 = 0.0015 * P + 0.0001 * P ^ 2) ∧
    ((predict P "Salt Cavern" dT c).1 = 0.18 * P + 0.20 * P ^ 2 ∧
     (predict P "Salt Cavern" dT c).2.1 = 0.0010 * P + 0.00005 * P ^ 2) := by
  have hSC : ¬("Salt Cavern" = "Depleted Gas Field") := by decide
  rcases h with h | h <;> subst h <;> refine ⟨⟨?_, ?_⟩, ?_, ?_⟩ <;>
    (first | rw [predict_stress_eq] | rw [predict_disp_eq]) <;>
    (first | rw [if_pos rfl] | rw [if_neg hSC]) <;> ring

/-- Witness for C2 at P = 2, ΔT = 0, cycles = 5. -/
theorem base_formulas_no_thermal_witness :
    (predict 2 "Depleted Gas Field" 0 5).1 = 0.21 * 2 + 0.30 * 2 ^ 2 ∧
    (predict 2 "Salt Cavern" 0 5).1 = 0.18 * 2 + 0.20 * 2 ^ 2 := by
  have h := base_formulas_no_thermal 2 0 5 (by norm_num) (Or.inl rfl)
  exact ⟨h.1.1, h.2.1⟩

/-- C3: for fixed pressure and formation, the stress and displacement of
`predict P f ΔT cycles` equal those of `predict P f 0 1` scaled by
`1 + 3.5e-5 · ΔT · cycles`. -/
theorem thermal_scaling_factor (P : ℚ) (f : String) (dT c : ℚ) :
    (predict P f dT c).1 = (predict P f 0 1).1 * (1 + 3.5e-5 * dT * c) ∧
    (predict P f dT c).2.1 = (predict P f 0 1).2.1 * (1 + 3.5e-5 * dT * c) := by
  by_cases hf : f = "Depleted Gas Field" <;> simp [predict, hf] <;> constructor <;> ring

/-- C4: the sweep over [1, 10] with 100 samples returns exactly 100 points,
first pressure 1, last pressure 10, in strictly ascending pressure order,
and each point carries `predict`'s stress and its displacement converted to
millimeters (meters × 1000). -/
theorem sweep_grid_contract (f : String) (dT c : ℚ) :
    (sweep f dT c 1 10 100).length = 100 ∧
    ((sweep f dT c 1 10 100).map Prod.fst).head? = some 1 ∧
    ((sweep f dT c 1 10 100).map Prod.fst).getLast? = some 10 ∧
    ((sweep f dT c 1 10 100).map Prod.fst).Pairwise (· < ·) ∧
    ∀ pt ∈ sweep f dT c 1 10 100,
      pt.2.1 = (predict pt.1 f dT c).1 ∧
      pt.2.2 = (predict pt.1 f dT c).2.1 * 1000 := by
  refine ⟨?_, ?_, ?_, ?_, ?_⟩
  · unfold sweep; rw [List.length_map, linspace_length]
  · rw [sweep_pressures]; exact linspace_head 1 10 100 (by norm_num)
  · rw [sweep_pressures]; exact linspace_getLast 1 10 100 (by norm_num)
  · rw [sweep_pressures]; exact linspace_pairwise 1 10 100 (by norm_num) (by norm_num)
  · intro pt hpt
    simp only [sweep, List.mem_map] at hpt
    obtain ⟨p, hp, rfl⟩ := hpt
    exact ⟨rfl, rfl⟩

/-- Witness for C4 at a concrete formation and thermal setting. -/
theorem sweep_grid_contract_witness :
    (sweep "Salt Cavern" 0 1 1 10 100).length = 100 :=
  (sweep_grid_contract "Salt Cavern" 0 1).1

/-- C5 counterexample: strict monotonicity in pressure fails for some
thermal parameters — at ΔT = -100000, cycles = 1 the thermal factor is
negative and stress decreases from P = 1 to P = 2. -/
theorem pressure_monotonicity_counterexample :
    ¬ ∀ (f : String) (dT c : ℚ), ∀ P1 P2 : ℚ,
        1 ≤ P1 → P1 < P2 → P2 ≤ 10 →
        (predict P1 f dT c).1 < (predict P2 f dT c).1 ∧
        (predict P1 f dT c).2.1 < (predict P2 f dT c).2.1 := by
  intro h
  have h2 := (h "Salt Cavern" (-100000) 1 1 2 (le_refl 1) (by norm_num) (by norm_num)).1
  simp [predict] at h2
  norm_num at h2

/-- C5 amended: for thermal parameters whose factor `1 + 3.5e-5·ΔT·cycles`
is positive (in particular for all ΔT ≥ 0, cycles ≥ 0), stress and
displacement are strictly increasing in pressure over [1, 10]. -/
theorem pressure_monotonicity_pos_factor (f : String) (dT c P1 P2 : ℚ)
    (hfac : 0 < 1 + 3.5e-5 * dT * c)
    (h1 : 1 ≤ P1) (h12 : P1 < P2) (h2 : P2 ≤ 10) :
    (predict P1 f dT c).1 < (predict P2 f dT c).1 ∧
    (predict P1 f dT c).2.1 < (predict P2 f dT c).2.1 := by
  by_cases hf : f = "Depleted Gas Field" <;> simp [predict, hf] <;> constructor <;>
    nlinarith [mul_pos hfac (show (0:ℚ) < P2 - P1 by linarith),
               mul_pos (mul_pos hfac (show (0:ℚ) < P2 - P1 by linarith))
                 (show (0:ℚ) < P2 + P1 by linarith)]

/-- Witness for the amended C5 at ΔT = 0, cycles = 1, pressures 1 < 2. -/
theorem pressure_monotonicity_pos_factor_witness :
    (predict 1 "Depleted Gas Field" 0 1).1 < (predict 2 "Depleted Gas Field" 0 1).1 :=
  (pressure_monotonicity_pos_factor "Depleted Gas Field" 0 1 1 2
    (by norm_num) (by norm_num) (by norm_num) (by norm_num)).1

/-- C6 counterexample: the claimed displacement value at P = 3 is a
miscalculation — `0.0015·3 + 0.0001·9 = 0.0054`, not `0.00555`, and
`predict` returns 0.0054. -/
theorem dgf_point_values_counterexample :
    ¬ (predict 3 "Depleted Gas Field" 0 1).2.1 = 0.00555 := by
  simp [predict]
  norm_num

/-- C6 amended: for DepletedGasField with ΔT = 0, `predict` at P = 5 yields
stress 8.55 and tier High; at P = 3 it yields stress 3.33, displacement
0.0054 (= 0.0015·3 + 0.0001·9), and tier Low. -/
theorem dgf_point_values_amended :
    (predict 5 "Depleted Gas Field" 0 1).1 = 8.55 ∧
    (predict 5 "Depleted Gas Field" 0 1).2.2 = "High" ∧
    (predict 3 "Depleted Gas Field" 0 1).1 = 3.33 ∧
    (predict 3 "Depleted Gas Field" 0 1).2.1 = 0.0054 ∧
    (predict 3 "Depleted Gas Field" 0 1).2.2 = "Low" := by
  refine ⟨?_, ?_, ?_, ?_, ?_⟩ <;> simp [predict] <;> norm_num

/-- C7: `predict` is a pure deterministic function of its four arguments —
calls with identical arguments return identical (stress, displacement,
risk) triples; the embedding takes no inputs besides the four arguments,
mirroring the source function which reads no external state. -/
theorem predict_deterministic (p1 p2 dT1 dT2 c1 c2 : ℚ) (f1 f2 : String)
    (hp : p1 = p2) (hf : f1 = f2) (hd : dT1 = dT2) (hc : c1 = c2) :
    predict p1 f1 dT1 c1 = predict p2 f2 dT2 c2 := by
  subst hp; subst hf; subst hd; subst hc; rfl

/-- Witness for C7 at a concrete repeated call. -/
theorem predict_deterministic_witness :
    predict 5 "Salt Cavern" 25 3 = predict 5 "Salt Cavern" 25 3 :=
  predict_deterministic 5 5 25 25 3 3 "Salt Cavern" "Salt Cavern" rfl rfl rfl rfl

/-- C8: `predict` is total over all rational inputs and every formation
string — it performs no bounds checking and always returns a well-formed
result whose risk tier is one of the three labels, including at negative
or out-of-nominal-range inputs. -/
theorem predict_total_no_error (p : ℚ) (f : String) (dT c : ℚ) :
    (predict p f dT c).2.2 = "High" ∨ (predict p f dT c).2.2 = "Moderate" ∨
    (predict p f dT c).2.2 = "Low" := by
  by_cases hf : f = "Depleted Gas Field" <;> simp only [predict, hf] <;>
    split_ifs <;> simp

/-- C9: for pressure ≥ 0, ΔT ≥ 0 and cycles ≥ 0 (any formation string,
hence both formations), the stress and displacement returned by `predict`
are nonnegative. -/
theorem outputs_nonneg (p dT c : ℚ) (f : String)
    (hp : 0 ≤ p) (hd : 0 ≤ dT) (hc : 0 ≤ c) :
    0 ≤ (predict p f dT c).1 ∧ 0 ≤ (predict p f dT c).2.1 := by
  have ht : (0:ℚ) ≤ 3.5e-5 * dT * c := by positivity
  by_cases hf : f = "Depleted Gas Field" <;> simp [predict, hf] <;>
    constructor <;> nlinarith

/-- Witness for C9 at P = 2, ΔT = 25, cycles = 3. -/
theorem outputs_nonneg_witness :
    0 ≤ (predict 2 "Salt Cavern" 25 3).1 ∧ 0 ≤ (predict 2 "Salt Cavern" 25 3).2.1 :=
  outputs_nonneg 2 25 3 "Salt Cavern" (by norm_num) (by norm_num) (by norm_num)

/-- C10: any formation string other than "Depleted Gas Field" is silently
treated with the SaltCavern coefficients — the result coincides with the
"Salt Cavern" result, stress `(0.18·P + 0.2·P²)·(1 + 3.5e-5·ΔT·cycles)`
and displacement `(0.001·P + 0.00005·P²)·(1 + 3.5e-5·ΔT·cycles)`. -/
theorem unknown_formation_defaults_salt (p dT c : ℚ) (f : String)
    (hf : f ≠ "Depleted Gas Field") :
    predict p f dT c = predict p "Salt Cavern" dT c ∧
    (predict p f dT c).1 = (0.18 * p + 0.2 * p ^ 2) * (1 + 3.5e-5 * dT * c) ∧
    (predict p f dT c).2.1 = (0.001 * p + 0.00005 * p ^ 2) * (1 + 3.5e-5 * dT * c) := by
  refine ⟨?_, ?_, ?_⟩ <;> simp [predict, hf] <;> ring

/-- Witness for C10 with the unrecognized formation string "Granite". -/
theorem unknown_formation_defaults_salt_witness :
    predict 4 "Granite" 0 1 = predict 4 "Salt Cavern" 0 1 :=
  (unknown_formation_defaults_salt 4 0 1 "Granite" (by decide)).1
